import Mathlib

/-!
Shallow embedding of the Monte Carlo hotel revenue simulation
(`src/hotel.py`, with the engine loop at lines 122-145; the variant in
`src/hotel_revenue_gui.py` lines 118-135 differs only in the elasticity
form and the absence of seasonality noise).

Numbers are rationals.  Randomness is an oracle: every call
`np.random.normal(mean, std, n)` is embedded as `mean + std * eps i`
where `eps : ℕ → ℚ` is the trial-indexed stream of unit draws supplied
by the environment, and the pair `(z1, z2)` drawn from
`np.random.multivariate_normal` is likewise supplied per month.  The
library functions `scipy.stats.norm.cdf` and `np.exp` are part of the
environment as abstract functions `cdf` and `expf` on ℚ.
-/

namespace Hotel

/-- The scenario configuration: every input the Streamlit page collects
(`src/hotel.py` lines 37-76), whether or not the engine loop reads it. -/
structure Config where
  n_rooms : ℕ
  n_simulations : ℕ
  base_adr : ℚ
  inflation_rate : ℚ
  demand_growth : ℚ
  unexpected_costs_mean : ℚ
  unexpected_costs_std : ℚ
  occupancy_min : ℚ
  occupancy_mode : ℚ
  occupancy_max : ℚ
  adr_std_dev_percentage : ℚ
  adr_occupancy_correlation : ℚ
  elasticity_coefficient : ℚ
  seasonality_coefficients : ℕ → ℚ
  seasonality_noise_perc : ℚ
  guest_spending_per_night_per_room : ℚ
  spending_std_dev : ℚ

/-- The unit random draws one month of the loop consumes, indexed by
trial number: the seasonality-noise draw (line 125), the correlated
pair `z1, z2` (lines 133-134), the ADR draw (line 136) and the guest
spending draw (line 139). -/
structure MonthDraws where
  noiseEps : ℕ → ℚ
  z1 : ℕ → ℚ
  z2 : ℕ → ℚ
  adrEps : ℕ → ℚ
  spendEps : ℕ → ℚ

/-- The random/library environment: the per-month draw streams plus the
two library functions the loop applies pointwise. -/
structure Env where
  cdf : ℚ → ℚ
  expf : ℚ → ℚ
  draws : ℕ → MonthDraws

/-- `np.clip(x, 0, None)`. -/
def clip0 (x : ℚ) : ℚ := max x 0

/-- `np.clip(x, 0, 1)`. -/
def clip01 (x : ℚ) : ℚ := min (max x 0) 1

/-- `np.interp(x, [0, 1], [a, b])`: clamped linear interpolation. -/
def interp01 (x a b : ℚ) : ℚ :=
  if x ≤ 0 then a else if 1 ≤ x then b else a + x * (b - a)

/-- `days_in_month` (hotel.py lines 115-118): the fixed non-leap-year
day-count table, keyed by month 1-12. -/
def daysInMonth : ℕ → ℕ
  | 1 => 31 | 2 => 28 | 3 => 31 | 4 => 30 | 5 => 31 | 6 => 30
  | 7 => 31 | 8 => 31 | 9 => 30 | 10 => 31 | 11 => 30 | 12 => 31
  | _ => 0

/-- Lines 125-128: `seasonal_adj = np.clip(coef * np.random.normal(1.0,
seasonality_noise_perc, n), 0, None)` at trial `i`. -/
def seasonalAdj (c : Config) (e : Env) (m i : ℕ) : ℚ :=
  clip0 (c.seasonality_coefficients m *
    (1 + c.seasonality_noise_perc * (e.draws m).noiseEps i))

/-- Line 130: `adr_base = base_adr * seasonal_adj` at trial `i`. -/
def adrBase (c : Config) (e : Env) (m i : ℕ) : ℚ :=
  c.base_adr * seasonalAdj c e m i

/-- Line 135: `occupancy_sim = np.clip(np.interp(norm.cdf(z1), [0, 1],
[occupancy_min, occupancy_max]), 0, 1)` at trial `i`. -/
def occupancySim (c : Config) (e : Env) (m i : ℕ) : ℚ :=
  clip01 (interp01 (e.cdf ((e.draws m).z1 i))
    c.occupancy_min c.occupancy_max)

/-- Lines 136-138: the nightly-rate sample at trial `i` — a normal draw
centred at `adr_base` with scale `adr_base * adr_std_dev_percentage`,
scaled by `np.exp(-elasticity_coefficient * z2)`, clipped non-negative. -/
def adrSim (c : Config) (e : Env) (m i : ℕ) : ℚ :=
  clip0 ((adrBase c e m i +
      adrBase c e m i * c.adr_std_dev_percentage * (e.draws m).adrEps i) *
    e.expf (-(c.elasticity_coefficient * (e.draws m).z2 i)))

/-- Lines 139-140: the guest-spending sample at trial `i`, with negative
draws replaced by 0. -/
def spendSim (c : Config) (e : Env) (m i : ℕ) : ℚ :=
  clip0 (c.guest_spending_per_night_per_room +
    c.spending_std_dev * (e.draws m).spendEps i)

/-- Line 141: `revenue_per_night = (adr_sim + spend_sim) * occupancy_sim
* n_rooms` at trial `i`. -/
def revenuePerNight (c : Config) (e : Env) (m i : ℕ) : ℚ :=
  (adrSim c e m i + spendSim c e m i) * occupancySim c e m i *
    (c.n_rooms : ℚ)

/-- Line 142: `monthly_revenue = revenue_per_night * days_in_month[month]`
at trial `i`. -/
def monthlyRevenueAt (c : Config) (e : Env) (m i : ℕ) : ℚ :=
  revenuePerNight c e m i * (daysInMonth m : ℚ)

/-- One month's `MonthlyResult`: the `n_simulations`-long sequence of
monthly revenue values (line 143, `results_monthly[month]`). -/
def monthResult (c : Config) (e : Env) (m : ℕ) : List ℚ :=
  (List.range c.n_simulations).map (monthlyRevenueAt c e m)

/-- `results_monthly` after the loop `for month in range(1, 13)`
(lines 122-143), as the ordered list of the twelve monthly sequences. -/
def resultsMonthly (c : Config) (e : Env) : List (List ℚ) :=
  [monthResult c e 1, monthResult c e 2, monthResult c e 3,
   monthResult c e 4, monthResult c e 5, monthResult c e 6,
   monthResult c e 7, monthResult c e 8, monthResult c e 9,
   monthResult c e 10, monthResult c e 11, monthResult c e 12]

/-- `np.array(rows).sum(axis=0)`: columnwise sum of a rectangular list
of rows, with the column count taken from the first row. -/
def sumAxis0 : List (List ℚ) → List ℚ
  | [] => []
  | l :: rest =>
    (List.range l.length).map
      (fun i => ((l :: rest).map (fun r => r.getD i 0)).sum)

/-- Line 145: `yearly_revenue_sim =
np.array(list(results_monthly.values())).sum(axis=0)`. -/
def yearlyRevenueSim (c : Config) (e : Env) : List ℚ :=
  sumAxis0 (resultsMonthly c e)

/-- Insert into a sorted list, preserving order. -/
def sortedInsert (x : ℚ) : List ℚ → List ℚ
  | [] => [x]
  | y :: ys => if x ≤ y then x :: y :: ys else y :: sortedInsert x ys

/-- Ascending insertion sort, standing in for numpy's internal sort. -/
def sortQ (xs : List ℚ) : List ℚ := xs.foldr sortedInsert []

/-- `np.percentile(xs, q)` with the default linear-interpolation method:
sort, take the virtual index `q/100 * (n-1)`, and linearly interpolate
between the two neighbouring order statistics. -/
def npPercentile (xs : List ℚ) (q : ℚ) : ℚ :=
  let s := sortQ xs
  let n := s.length
  let pos : ℚ := q * ((n : ℚ) - 1) / 100
  let j : ℕ := (Int.toNat ⌊pos⌋)
  let frac : ℚ := pos - (j : ℚ)
  let lo := s.getD j 0
  let hi := s.getD (min (j + 1) (n - 1)) 0
  lo + frac * (hi - lo)

end Hotel

namespace Hotel

/-! ### Concrete instances used by witnesses and counterexamples -/

/-- A degenerate draw environment: every unit draw is 0. -/
def zeroDraws : MonthDraws :=
  { noiseEps := fun _ => 0, z1 := fun _ => 0, z2 := fun _ => 0,
    adrEps := fun _ => 0, spendEps := fun _ => 0 }

/-- An environment whose cdf is constantly 1/2 (the value of the real
standard normal cdf at 0) and whose exponential is constantly 1 (the
value of the real exponential at 0), matching `zeroDraws`. -/
def exampleEnv : Env :=
  { cdf := fun _ => 1/2, expf := fun _ => 1, draws := fun _ => zeroDraws }

/-- The spec's reference scenario (spec section 8), with one trial. -/
def exampleConfig : Config :=
  { n_rooms := 11, n_simulations := 1, base_adr := 127,
    inflation_rate := 5/2, demand_growth := 3,
    unexpected_costs_mean := 15000, unexpected_costs_std := 5000,
    occupancy_min := 3/10, occupancy_mode := 3/5, occupancy_max := 17/20,
    adr_std_dev_percentage := 7/100, adr_occupancy_correlation := -1/2,
    elasticity_coefficient := 1/5,
    seasonality_coefficients := fun _ => 1, seasonality_noise_perc := 2/25,
    guest_spending_per_night_per_room := 50, spending_std_dev := 15 }

/-! ### Helper lemmas -/

theorem getD_range_map (f : ℕ → ℚ) (n i : ℕ) (h : i < n) :
    ((List.range n).map f).getD i 0 = f i := by
  rw [List.getD_eq_getElem?_getD]
  simp [List.getElem?_map, List.getElem?_range, h]

theorem monthResult_length (c : Config) (e : Env) (m : ℕ) :
    (monthResult c e m).length = c.n_simulations := by
  simp [monthResult]

theorem monthResult_getD (c : Config) (e : Env) (m i : ℕ)
    (h : i < c.n_simulations) :
    (monthResult c e m).getD i 0 = monthlyRevenueAt c e m i :=
  getD_range_map _ _ _ h

theorem clip0_nonneg (x : ℚ) : 0 ≤ clip0 x := le_max_right _ _

theorem clip01_nonneg (x : ℚ) : 0 ≤ clip01 x :=
  le_min (le_max_right _ _) zero_le_one

theorem clip01_le_one (x : ℚ) : clip01 x ≤ 1 := min_le_right _ _

theorem interp01_mem (x a b : ℚ) (hab : a ≤ b) :
    a ≤ interp01 x a b ∧ interp01 x a b ≤ b := by
  unfold interp01
  split_ifs with h1 h2
  · exact ⟨le_refl a, hab⟩
  · exact ⟨hab, le_refl b⟩
  · push_neg at h1 h2
    constructor
    · nlinarith
    · nlinarith

/-! ### Claim theorems -/

/-- Claim C2: for every configuration, environment and month, the
monthly simulation returns a sequence of exactly `n_simulations` revenue
values, and every value in range is non-negative. -/
theorem monthly_length_and_nonneg (c : Config) (e : Env) (m i : ℕ)
    (h : i < c.n_simulations) :
    (monthResult c e m).length = c.n_simulations ∧
    0 ≤ (monthResult c e m).getD i 0 := by
  refine ⟨monthResult_length c e m, ?_⟩
  rw [monthResult_getD c e m i h]
  unfold monthlyRevenueAt revenuePerNight
  have h1 : 0 ≤ adrSim c e m i := clip0_nonneg _
  have h2 : 0 ≤ spendSim c e m i := clip0_nonneg _
  have h3 : 0 ≤ occupancySim c e m i := clip01_nonneg _
  have h4 : (0 : ℚ) ≤ (c.n_rooms : ℚ) := Nat.cast_nonneg _
  have h5 : (0 : ℚ) ≤ (daysInMonth m : ℚ) := Nat.cast_nonneg _
  exact mul_nonneg (mul_nonneg (mul_nonneg (add_nonneg h1 h2) h3) h4) h5

/-- Witness for C2 at the reference scenario, month 1, trial 0. -/
theorem monthly_length_and_nonneg_witness :
    (monthResult exampleConfig exampleEnv 1).length =
      exampleConfig.n_simulations ∧
    0 ≤ (monthResult exampleConfig exampleEnv 1).getD 0 0 :=
  monthly_length_and_nonneg exampleConfig exampleEnv 1 0 (by simp [exampleConfig])

/-- Claim C5: every occupancy sample is the standard normal cdf of `z1`
linearly interpolated from [0,1] into `[occupancy_min, occupancy_max]`
and then clipped to [0,1]; consequently it lies in [0,1]. -/
theorem occupancy_construction_and_bounds (c : Config) (e : Env) (m i : ℕ) :
    occupancySim c e m i =
      clip01 (interp01 (e.cdf ((e.draws m).z1 i))
        c.occupancy_min c.occupancy_max) ∧
    0 ≤ occupancySim c e m i ∧ occupancySim c e m i ≤ 1 :=
  ⟨rfl, clip01_nonneg _, clip01_le_one _⟩

/-- Claim C10: under `0 ≤ occupancy_min ≤ occupancy_max ≤ 1`, every
occupancy sample lies in the closed interval
`[occupancy_min, occupancy_max]`. -/
theorem occupancy_within_min_max (c : Config) (e : Env) (m i : ℕ)
    (h0 : 0 ≤ c.occupancy_min) (h1 : c.occupancy_min ≤ c.occupancy_max)
    (h2 : c.occupancy_max ≤ 1) :
    c.occupancy_min ≤ occupancySim c e m i ∧
    occupancySim c e m i ≤ c.occupancy_max := by
  obtain ⟨ha, hb⟩ :=
    interp01_mem (e.cdf ((e.draws m).z1 i)) c.occupancy_min c.occupancy_max h1
  unfold occupancySim clip01
  constructor
  · exact le_min (le_trans ha (le_max_left _ _)) (le_trans h1 h2)
  · exact le_trans (min_le_left _ _) (max_le hb (le_trans h0 h1))

/-- Witness for C10 at the reference scenario, month 1, trial 0. -/
theorem occupancy_within_min_max_witness :
    exampleConfig.occupancy_min ≤ occupancySim exampleConfig exampleEnv 1 0 ∧
    occupancySim exampleConfig exampleEnv 1 0 ≤ exampleConfig.occupancy_max :=
  occupancy_within_min_max exampleConfig exampleEnv 1 0
    (by norm_num [exampleConfig]) (by norm_num [exampleConfig])
    (by norm_num [exampleConfig])

/-- Claim C6: the percentile function interpolates linearly between
order statistics: on [1,2,3,4,5,6,7,8,9,10] the 50th percentile is 5.5,
the 100th is 10 and the 0th is 1. -/
theorem percentile_linear_interpolation :
    npPercentile [1,2,3,4,5,6,7,8,9,10] 50 = 11/2 ∧
    npPercentile [1,2,3,4,5,6,7,8,9,10] 100 = 10 ∧
    npPercentile [1,2,3,4,5,6,7,8,9,10] 0 = 1 := by
  refine ⟨?_, ?_, ?_⟩ <;>
    · norm_num [npPercentile, sortQ, sortedInsert]
      try simp
      try norm_num

/-- Claim C1: the annual result is the elementwise sum of the twelve
monthly results paired by trial index, and all output sequences have
length `n_simulations`. -/
theorem annual_is_elementwise_sum (c : Config) (e : Env) (i : ℕ)
    (h : i < c.n_simulations) :
    (yearlyRevenueSim c e).length = c.n_simulations ∧
    (∀ m, (monthResult c e m).length = c.n_simulations) ∧
    (yearlyRevenueSim c e).getD i 0 =
      (monthResult c e 1).getD i 0 + (monthResult c e 2).getD i 0 +
      (monthResult c e 3).getD i 0 + (monthResult c e 4).getD i 0 +
      (monthResult c e 5).getD i 0 + (monthResult c e 6).getD i 0 +
      (monthResult c e 7).getD i 0 + (monthResult c e 8).getD i 0 +
      (monthResult c e 9).getD i 0 + (monthResult c e 10).getD i 0 +
      (monthResult c e 11).getD i 0 + (monthResult c e 12).getD i 0 := by
  refine ⟨?_, fun m => monthResult_length c e m, ?_⟩
  · show (sumAxis0 (resultsMonthly c e)).length = _
    simp [resultsMonthly, sumAxis0, monthResult_length]
  · show (sumAxis0 (resultsMonthly c e)).getD i 0 = _
    unfold resultsMonthly sumAxis0
    rw [getD_range_map _ _ _ (by rw [monthResult_length]; exact h)]
    simp only [List.map_cons, List.map_nil, List.sum_cons, List.sum_nil]
    ring

/-- Witness for C1 at the reference scenario, trial 0. -/
theorem annual_is_elementwise_sum_witness :
    (yearlyRevenueSim exampleConfig exampleEnv).length =
      exampleConfig.n_simulations ∧
    (∀ m, (monthResult exampleConfig exampleEnv m).length =
      exampleConfig.n_simulations) ∧
    (yearlyRevenueSim exampleConfig exampleEnv).getD 0 0 =
      (monthResult exampleConfig exampleEnv 1).getD 0 0 +
      (monthResult exampleConfig exampleEnv 2).getD 0 0 +
      (monthResult exampleConfig exampleEnv 3).getD 0 0 +
      (monthResult exampleConfig exampleEnv 4).getD 0 0 +
      (monthResult exampleConfig exampleEnv 5).getD 0 0 +
      (monthResult exampleConfig exampleEnv 6).getD 0 0 +
      (monthResult exampleConfig exampleEnv 7).getD 0 0 +
      (monthResult exampleConfig exampleEnv 8).getD 0 0 +
      (monthResult exampleConfig exampleEnv 9).getD 0 0 +
      (monthResult exampleConfig exampleEnv 10).getD 0 0 +
      (monthResult exampleConfig exampleEnv 11).getD 0 0 +
      (monthResult exampleConfig exampleEnv 12).getD 0 0 :=
  annual_is_elementwise_sum exampleConfig exampleEnv 0 (by simp [exampleConfig])

/-- Claim C7: each monthly revenue value is
`(rate + spending) * occupancy * room_count * days`, with the day count
taken from the fixed non-leap-year table. -/
theorem monthly_revenue_formula (c : Config) (e : Env) (m i : ℕ)
    (h : i < c.n_simulations) :
    (monthResult c e m).getD i 0 =
      (adrSim c e m i + spendSim c e m i) * occupancySim c e m i *
        (c.n_rooms : ℚ) * (daysInMonth m : ℚ) ∧
    daysInMonth 1 = 31 ∧ daysInMonth 2 = 28 ∧ daysInMonth 3 = 31 ∧
    daysInMonth 4 = 30 ∧ daysInMonth 5 = 31 ∧ daysInMonth 6 = 30 ∧
    daysInMonth 7 = 31 ∧ daysInMonth 8 = 31 ∧ daysInMonth 9 = 30 ∧
    daysInMonth 10 = 31 ∧ daysInMonth 11 = 30 ∧ daysInMonth 12 = 31 := by
  refine ⟨?_, by decide, by decide, by decide, by decide, by decide,
    by decide, by decide, by decide, by decide, by decide, by decide,
    by decide⟩
  rw [monthResult_getD c e m i h]
  rfl

/-- Witness for C7 at the reference scenario, month 1, trial 0. -/
theorem monthly_revenue_formula_witness :
    (monthResult exampleConfig exampleEnv 1).getD 0 0 =
      (adrSim exampleConfig exampleEnv 1 0 +
        spendSim exampleConfig exampleEnv 1 0) *
        occupancySim exampleConfig exampleEnv 1 0 *
        (exampleConfig.n_rooms : ℚ) * (daysInMonth 1 : ℚ) ∧
    daysInMonth 1 = 31 ∧ daysInMonth 2 = 28 ∧ daysInMonth 3 = 31 ∧
    daysInMonth 4 = 30 ∧ daysInMonth 5 = 31 ∧ daysInMonth 6 = 30 ∧
    daysInMonth 7 = 31 ∧ daysInMonth 8 = 31 ∧ daysInMonth 9 = 30 ∧
    daysInMonth 10 = 31 ∧ daysInMonth 11 = 30 ∧ daysInMonth 12 = 31 :=
  monthly_revenue_formula exampleConfig exampleEnv 1 0 (by simp [exampleConfig])

/-- A variant of the reference scenario differing only in the five
fields the engine loop never reads. -/
def variantConfig : Config :=
  { exampleConfig with
    occupancy_mode := 1/2, inflation_rate := 9, demand_growth := 0,
    unexpected_costs_mean := 0, unexpected_costs_std := 1 }

/-- Claim C9: the monthly and annual results do not depend on
`occupancy_mode`, `inflation_rate`, `demand_growth`,
`unexpected_costs_mean` or `unexpected_costs_std`: any two
configurations that agree on every other field produce identical
outputs under the same draws. -/
theorem results_ignore_unused_fields (c c2 : Config) (e : Env)
    (h1 : c2.n_rooms = c.n_rooms)
    (h2 : c2.n_simulations = c.n_simulations)
    (h3 : c2.base_adr = c.base_adr)
    (h4 : c2.occupancy_min = c.occupancy_min)
    (h5 : c2.occupancy_max = c.occupancy_max)
    (h6 : c2.adr_std_dev_percentage = c.adr_std_dev_percentage)
    (_h7 : c2.adr_occupancy_correlation = c.adr_occupancy_correlation)
    (h8 : c2.elasticity_coefficient = c.elasticity_coefficient)
    (h9 : c2.seasonality_coefficients = c.seasonality_coefficients)
    (h10 : c2.seasonality_noise_perc = c.seasonality_noise_perc)
    (h11 : c2.guest_spending_per_night_per_room =
      c.guest_spending_per_night_per_room)
    (h12 : c2.spending_std_dev = c.spending_std_dev) :
    resultsMonthly c2 e = resultsMonthly c e ∧
    yearlyRevenueSim c2 e = yearlyRevenueSim c e := by
  have hAt : monthlyRevenueAt c2 e = monthlyRevenueAt c e := by
    funext m i
    simp [monthlyRevenueAt, revenuePerNight, adrSim, adrBase, seasonalAdj,
      occupancySim, spendSim, h1, h3, h4, h5, h6, h8, h9, h10, h11, h12]
  have hm : ∀ m, monthResult c2 e m = monthResult c e m := by
    intro m
    simp [monthResult, h2, hAt]
  have hr : resultsMonthly c2 e = resultsMonthly c e := by
    simp [resultsMonthly, hm]
  exact ⟨hr, by simp [yearlyRevenueSim, hr]⟩

/-- Witness for C9: the reference scenario and its five-field variant
give identical outputs. -/
theorem results_ignore_unused_fields_witness :
    resultsMonthly variantConfig exampleEnv =
      resultsMonthly exampleConfig exampleEnv ∧
    yearlyRevenueSim variantConfig exampleEnv =
      yearlyRevenueSim exampleConfig exampleEnv :=
  results_ignore_unused_fields exampleConfig variantConfig exampleEnv
    rfl rfl rfl rfl rfl rfl rfl rfl rfl rfl rfl rfl

/-- A scenario with zero ADR volatility and zero elasticity but nonzero
seasonality noise (hotel.py line 125 draws the noise). -/
def noisyZeroStdConfig : Config :=
  { exampleConfig with
    adr_std_dev_percentage := 0, elasticity_coefficient := 0,
    seasonality_noise_perc := 1/10, base_adr := 100 }

/-- The same scenario with the seasonality noise switched off as well. -/
def noiselessConfig : Config :=
  { exampleConfig with
    adr_std_dev_percentage := 0, elasticity_coefficient := 0,
    seasonality_noise_perc := 0 }

/-- An environment whose seasonality-noise unit draw is 1 and whose
other draws are 0; its exponential agrees with the real one at 0, the
only point at which it is evaluated here. -/
def unitNoiseEnv : Env :=
  { cdf := fun _ => 1/2, expf := fun _ => 1,
    draws := fun _ => { zeroDraws with noiseEps := fun _ => 1 } }

/-- Counterexample to claim C3 as stated: with `adr_std_dev_fraction = 0`
and `elasticity_coefficient = 0` but a nonzero seasonality noise, a rate
sample differs from `base_adr * seasonality_coefficients[month]` (here
110 instead of 100). -/
theorem adr_exact_counterexample :
    noisyZeroStdConfig.adr_std_dev_percentage = 0 ∧
    noisyZeroStdConfig.elasticity_coefficient = 0 ∧
    unitNoiseEnv.expf 0 = 1 ∧
    adrSim noisyZeroStdConfig unitNoiseEnv 1 0 ≠
      noisyZeroStdConfig.base_adr *
        noisyZeroStdConfig.seasonality_coefficients 1 := by
  refine ⟨rfl, rfl, rfl, ?_⟩
  norm_num [adrSim, adrBase, seasonalAdj, clip0, noisyZeroStdConfig,
    unitNoiseEnv, zeroDraws, exampleConfig]

/-- Claim C3 amended: with `adr_std_dev_fraction = 0`,
`elasticity_coefficient = 0` and `seasonality_noise_perc = 0`, every
rate sample equals `base_adr * seasonality_coefficients[month]` exactly
(for a non-negative base rate and coefficient, and an exponential that
is 1 at 0 as the real one is). -/
theorem adr_exact_when_noiseless (c : Config) (e : Env) (m i : ℕ)
    (hstd : c.adr_std_dev_percentage = 0)
    (hel : c.elasticity_coefficient = 0)
    (hnoise : c.seasonality_noise_perc = 0) (hexp : e.expf 0 = 1)
    (hcoef : 0 ≤ c.seasonality_coefficients m) (hbase : 0 ≤ c.base_adr) :
    adrSim c e m i = c.base_adr * c.seasonality_coefficients m := by
  unfold adrSim adrBase seasonalAdj
  simp only [hstd, hel, hnoise, zero_mul, add_zero, mul_one, mul_zero,
    neg_zero, hexp]
  unfold clip0
  rw [max_eq_left hcoef, max_eq_left (mul_nonneg hbase hcoef)]

/-- Witness for the amended C3 at the noiseless scenario. -/
theorem adr_exact_when_noiseless_witness :
    adrSim noiselessConfig exampleEnv 1 0 =
      noiselessConfig.base_adr *
        noiselessConfig.seasonality_coefficients 1 :=
  adr_exact_when_noiseless noiselessConfig exampleEnv 1 0 rfl rfl rfl rfl
    (by norm_num [noiselessConfig, exampleConfig])
    (by norm_num [noiselessConfig, exampleConfig])

/-- The reference scenario with zero trials. -/
def cfgZeroTrials : Config :=
  { exampleConfig with n_simulations := 0 }

/-- The reference scenario with a correlation of 1.5, outside [-1,1]. -/
def cfgBadCorrelation : Config :=
  { exampleConfig with adr_occupancy_correlation := 3/2 }

/-- Counterexample to claim C4 as stated: the code performs no input
validation and raises no InvalidParameter — with `trial_count = 0` the
run completes and returns empty sequences, and with a correlation of
1.5 it completes and returns `trial_count` values. -/
theorem no_rejection_counterexample :
    cfgZeroTrials.n_simulations = 0 ∧
    monthResult cfgZeroTrials exampleEnv 1 = [] ∧
    yearlyRevenueSim cfgZeroTrials exampleEnv = [] ∧
    cfgBadCorrelation.adr_occupancy_correlation = 3/2 ∧
    (monthResult cfgBadCorrelation exampleEnv 1).length =
      cfgBadCorrelation.n_simulations := by
  refine ⟨rfl, ?_, ?_, rfl, monthResult_length _ _ _⟩
  · simp [monthResult, cfgZeroTrials]
  · simp [yearlyRevenueSim, resultsMonthly, sumAxis0, monthResult,
      cfgZeroTrials]

/-- Claim C4 amended: the engine performs no input validation — a run
with `trial_count = 0` completes and returns empty monthly and annual
sequences, and the correlation value never affects the computed
outputs (it only parameterises the distribution of the supplied
draws), so an out-of-range correlation is not rejected either. -/
theorem no_validation_amended (c : Config) (e : Env) (r : ℚ)
    (h : c.n_simulations = 0) :
    (∀ m, monthResult c e m = []) ∧ yearlyRevenueSim c e = [] ∧
    ∀ (c2 : Config) (m : ℕ),
      monthResult { c2 with adr_occupancy_correlation := r } e m =
        monthResult c2 e m := by
  refine ⟨fun m => by simp [monthResult, h], ?_, fun c2 m => rfl⟩
  simp [yearlyRevenueSim, resultsMonthly, sumAxis0, monthResult, h]

/-- Witness for the amended C4 at the zero-trial scenario. -/
theorem no_validation_amended_witness :
    (∀ m, monthResult cfgZeroTrials exampleEnv m = []) ∧
    yearlyRevenueSim cfgZeroTrials exampleEnv = [] ∧
    ∀ (c2 : Config) (m : ℕ),
      monthResult { c2 with adr_occupancy_correlation := (3/2 : ℚ) } exampleEnv m =
        monthResult c2 exampleEnv m :=
  no_validation_amended cfgZeroTrials exampleEnv (3/2) rfl
